import Mathlib

/-!
Verification of the Job-Search-App backend's cross-cutting request pipeline:
identity verification, declarative validation, ownership authorization,
error propagation, and the job-application submission workflow.

The JavaScript sources are shallowly embedded: each controller or middleware
function becomes an executable Lean function over explicit state (lists of
database records); thrown `AppError` values and direct JSON responses both
surface as explicit result constructors carrying the message and HTTP status.
Third-party primitives declared out of scope by the design document (password
hashing, token signing, the declarative validation engine, the external asset
store) are modelled at their documented interfaces, keeping every definition
executable.
-/

namespace JobSearchApp

/-! ### Error model

`src/utils/error.js` is not among the provided sources.
Modelled from the spec: a failure value has `message : string | list<string>`
and `statusCode : integer`; the boundary formatter (present in `index.js`)
converts it to a response body `{message}` with the given status, defaulting
to 500 when the status code is absent/falsy. -/

/-- A message is either a single string or a list of strings (validation). -/
inductive ErrMessage where
  | str (s : String)
  | list (l : List String)
deriving Repr, DecidableEq

/-- Modelled from the spec: `AppError` from the absent `src/utils/error.js`,
a failure value carrying a message and a status code. -/
structure AppError where
  message : ErrMessage
  statusCode : Nat
deriving Repr, DecidableEq

/-- An HTTP response as observed by the caller: a status and a `{message}` body. -/
structure HttpResponse where
  status : Nat
  message : ErrMessage
deriving Repr, DecidableEq

/-- The boundary error handler from `index.js`:
`res.status(statusCode || 500).json({ message })`.
JavaScript `||` treats `0` (and an absent code) as falsy. -/
def errorHandler (e : AppError) : HttpResponse :=
  { status := if e.statusCode = 0 then 500 else e.statusCode
    message := e.message }

/-! ### Password-hashing interface model

bcrypt is out of scope per the design document; it is modelled at its
interface: hashing embeds the password behind a tag and the salt rounds, and
comparison recovers exactly the password component. -/

/-- Interface model of `bcrypt.hashSync(password, saltRounds)`. The salt
rounds are a cost parameter and do not affect which passwords match, so the
model keeps the parameter but does not encode it. -/
def bcryptHash (password : String) (saltRounds : Nat) : String :=
  "bcrypt:" ++ password

/-- Interface model of `bcrypt.compareSync(password, hashed)`: true exactly
when `hashed` is a hash of `password`. -/
def bcryptCompare (password hashed : String) : Bool :=
  hashed == "bcrypt:" ++ password

/-! ### Token-signing interface model

The `jsonwebtoken` primitives are out of scope per the design document and are
modelled at their interface: a signed token carries its payload, the secret it
was signed with, and an absolute expiry instant; verification succeeds exactly
when the secrets agree and the token is unexpired, and fails on a malformed
token, a wrong secret, or expiry. Times are in milliseconds. -/

/-- The payload `SignIn` signs: `{ id, username, email, role }`. -/
structure JwtPayload where
  id : String
  username : String
  email : String
  role : String
deriving Repr, DecidableEq

/-- A well-formed signed token. -/
structure SignedToken where
  payload : JwtPayload
  secret : String
  exp : Nat
deriving Repr, DecidableEq

/-- A presented credential string: either garbage or a well-formed token. -/
inductive Token where
  | malformed
  | signed (t : SignedToken)
deriving Repr, DecidableEq

/-- Interface model of `jwt.sign(payload, secret, { expiresIn })` at time `now`. -/
def jwtSign (payload : JwtPayload) (secret : String) (expiresIn now : Nat) : Token :=
  .signed { payload := payload, secret := secret, exp := now + expiresIn }

/-- Interface model of `jwt.verify(token, secret)` at time `now`: `none` on any
verification failure (malformed token, wrong signing secret, or expiry). -/
def jwtVerify (t : Token) (secret : String) (now : Nat) : Option JwtPayload :=
  match t with
  | .malformed => none
  | .signed st => if st.secret == secret && now < st.exp then some st.payload else none

/-! ### Identity verification middleware

From `src/modules/middlewares/auth.middlewares.js`. Note the middleware
verifies against the hard-coded string literal `'secret'`, not the
environment-configured signing secret. -/

/-- Outcome of the `auth` middleware: an error response, or the decoded
identity attached to the request (`req.user = decoded`) with `next()` called. -/
inductive AuthResult where
  | err (message : String) (status : Nat)
  | ok (user : JwtPayload)
deriving Repr, DecidableEq

/-- The `auth(role)` middleware: 401 when the `token` header is absent, 498
when verification fails, 403 when a role was configured and the decoded role
differs, otherwise attach the decoded identity and proceed. -/
def auth (role : Option String) (tokenHeader : Option Token) (now : Nat) : AuthResult :=
  match tokenHeader with
  | none => .err "Please SignIn" 401
  | some token =>
    match jwtVerify token "secret" now with
    | none => .err "Invalid token" 498
    | some decoded =>
      match role with
      | some r => if decoded.role != r then .err "Not enough privileges" 403 else .ok decoded
      | none => .ok decoded

/-! ### User records and account operations -/

/-- A stored `User` document (`DB/model/user.model.js`). `otp` and
`otpExpire` are nullable; `DOB` is kept as a string. -/
structure UserRec where
  id : String
  firstName : String
  lastName : String
  username : String
  email : String
  password : String
  recoveryEmail : String
  DOB : String
  mobileNumber : String
  role : String
  status : String
  otp : Option String
  otpExpire : Option Nat
deriving Repr, DecidableEq

/-- Environment-sourced configuration (`process.env`). -/
structure Config where
  jwtSecret : String
  jwtExpiresIn : Nat
  bcryptSaltRounds : Nat
deriving Repr, DecidableEq

/-- Generic operation result: an error response (a thrown `AppError` as seen
through the boundary handler) or a success response with message, status and
payload. -/
inductive Resp (α : Type) where
  | err (message : String) (status : Nat)
  | ok (message : String) (status : Nat) (payload : α)
deriving Repr, DecidableEq

/-- `findOne` matching any of email / mobile number / recovery email
(the `$or` query used by `SignIn`). -/
def findOneByLogin (users : List UserRec) (key : String) : Option UserRec :=
  users.find? fun u => u.email == key || u.mobileNumber == key || u.recoveryEmail == key

/-- `findById`. -/
def findById (users : List UserRec) (id : String) : Option UserRec :=
  users.find? fun u => u.id == id

/-- `findOneAndUpdate` / `findByIdAndUpdate`: update the first record
matching the predicate, leaving the rest untouched. -/
def updateWhere {α : Type} (p : α → Bool) (f : α → α) : List α → List α
  | [] => []
  | x :: xs => if p x then f x :: xs else x :: updateWhere p f xs

/-- `findByIdAndDelete`: remove the first record matching the predicate. -/
def removeWhere {α : Type} (p : α → Bool) : List α → List α
  | [] => []
  | x :: xs => if p x then xs else x :: removeWhere p xs

/-- `SignIn` (`user.controller.js`): authenticate by email / recovery email /
mobile plus password, flip the user's status to `online`, and issue a token
signed with the configured secret and expiry. The success payload is the
issued token. -/
def SignIn (cfg : Config) (users : List UserRec)
    (emailOrRecoveryEmailOrMobile password : String) (now : Nat) :
    Resp Token × List UserRec :=
  match findOneByLogin users emailOrRecoveryEmailOrMobile with
  | none => (.err "Incorrect password or email" 400, users)
  | some user =>
    if !(bcryptCompare password user.password) then
      (.err "Incorrect password or email" 400, users)
    else
      let users' := updateWhere
        (fun u => u.email == emailOrRecoveryEmailOrMobile
          || u.mobileNumber == emailOrRecoveryEmailOrMobile
          || u.recoveryEmail == emailOrRecoveryEmailOrMobile)
        (fun u => { u with status := "online" }) users
      let token := jwtSign
        { id := user.id, username := user.username, email := user.email, role := user.role }
        cfg.jwtSecret cfg.jwtExpiresIn now
      (.ok "SignIn successfully" 200 token, users')

/-- `findOne` matching email or mobile number (the `$or` query used by
`forgetPassword` and `verifyOTPAndSetNewPassword`). -/
def findByEmailOrMobile (users : List UserRec) (key : String) : Option UserRec :=
  users.find? fun u => u.email == key || u.mobileNumber == key

/-- The request body of `signUp`. -/
structure SignUpBody where
  firstName : String
  lastName : String
  email : String
  password : String
  DOB : String
  mobileNumber : String
  recoveryEmail : String
  role : Option String
deriving Repr, DecidableEq

/-- `signUp` (`user.controller.js`): reject when a user with the same email
or mobile number exists (status 400, message `Email already exists`),
otherwise create the user with a hashed password, derived username, and the
schema defaults (`status = offline`, role defaulting to `User`). `newId` is
the id generated by the store. -/
def signUp (cfg : Config) (users : List UserRec) (newId : String) (b : SignUpBody) :
    Resp Unit × List UserRec :=
  let username := b.firstName ++ b.lastName
  let role := b.role.getD "User"
  match users.find? (fun u => u.email == b.email || u.mobileNumber == b.mobileNumber) with
  | some _ => (.err "Email already exists" 400, users)
  | none =>
    let hashedPassword := bcryptHash b.password cfg.bcryptSaltRounds
    (.ok "signup successfully" 201 (),
     users ++ [{
       id := newId, firstName := b.firstName, lastName := b.lastName
       username := username, email := b.email, password := hashedPassword
       recoveryEmail := b.recoveryEmail, DOB := b.DOB
       mobileNumber := b.mobileNumber, role := role
       status := "offline", otp := none, otpExpire := none }])

/-- The request body of `updateAccount`. All fields are modelled as present;
the store-level stripping of absent fields is not exercised by any claim. -/
structure UpdateAccountBody where
  email : String
  mobileNumber : String
  recoveryEmail : String
  DOB : String
  lastName : String
  firstName : String
deriving Repr, DecidableEq

/-- `updateAccount` (`user.controller.js`): 401 `Please SignUp` when the
authenticated id resolves to no user, 401 `LogIn first` when the stored status
is `offline`; then 409 when another user already holds the new email or mobile
number; otherwise apply the updates and respond with the updated record. -/
def updateAccount (users : List UserRec) (uid : String) (b : UpdateAccountBody) :
    Resp (Option UserRec) × List UserRec :=
  match findById users uid with
  | none => (.err "Please SignUp" 401, users)
  | some x =>
    if x.status == "offline" then (.err "LogIn first" 401, users)
    else
      let existingUser := users.find? fun u =>
        (u.email == b.email || u.mobileNumber == b.mobileNumber) && u.id != uid
      let proceed : Resp (Option UserRec) × List UserRec :=
        let users' := updateWhere (fun u => u.id == uid)
          (fun u => { u with
            email := b.email, mobileNumber := b.mobileNumber
            recoveryEmail := b.recoveryEmail, DOB := b.DOB
            lastName := b.lastName, firstName := b.firstName }) users
        (.ok "Account updated successfully" 200 (findById users' uid), users')
      match existingUser with
      | some e =>
        if e.email == b.email then (.err "Email already in use" 409, users)
        else if e.mobileNumber == b.mobileNumber then
          (.err "Mobile number already in use" 409, users)
        else proceed
      | none => proceed

/-- `deleteAccount` (`user.controller.js`): the same signup/status gates, then
delete the account and respond with the deleted record. -/
def deleteAccount (users : List UserRec) (uid : String) :
    Resp (Option UserRec) × List UserRec :=
  match findById users uid with
  | none => (.err "Please SignUp" 401, users)
  | some x =>
    if x.status == "offline" then (.err "LogIn first" 401, users)
    else
      (.ok "Account deleted successfully" 200 (findById users uid),
       removeWhere (fun u => u.id == uid) users)

/-- `getUserData` (`user.controller.js`): the same signup/status gates, then
respond with the user record. Read-only. -/
def getUserData (users : List UserRec) (uid : String) : Resp UserRec :=
  match findById users uid with
  | none => .err "Please SignUp" 401
  | some user =>
    if user.status == "offline" then .err "LogIn first" 401
    else .ok "Success" 200 user

/-- `forgetPassword` (`user.controller.js`): look up the user by email or
mobile; store the generated OTP (a random six-digit number, passed here as the
parameter `otp`) and an expiry of now + 10 minutes; dispatch of the email is
out of scope. -/
def forgetPassword (users : List UserRec) (emailOrMobile : String) (otp : Nat) (now : Nat) :
    Resp Unit × List UserRec :=
  match findByEmailOrMobile users emailOrMobile with
  | none => (.err "Incorrect email or mobile number" 400, users)
  | some user =>
    let otpExpire := now + 10 * 60 * 1000
    (.ok "OTP has been sent successfully" 201 (),
     updateWhere (fun u => u.id == user.id)
       (fun u => { u with otp := some (toString otp), otpExpire := some otpExpire }) users)

/-- `verifyOTPAndSetNewPassword` (`user.controller.js`): 400 `Invalid email or
OTP` when no user matches or the stored OTP differs from the submitted one;
400 `OTP expired` when the current time is past the stored expiry (a missing
expiry coerces to 0, as JavaScript compares `Date.now() > null`); otherwise
store a hash of the new password, clear `otp` and `otpExpire`, and succeed. -/
def verifyOTPAndSetNewPassword (users : List UserRec)
    (emailOrMobile otp newPassword : String) (now : Nat) :
    Resp Unit × List UserRec :=
  match findByEmailOrMobile users emailOrMobile with
  | none => (.err "Invalid email or OTP" 400, users)
  | some user =>
    if user.otp != some otp then (.err "Invalid email or OTP" 400, users)
    else if user.otpExpire.getD 0 < now then (.err "OTP expired" 400, users)
    else
      (.ok "Password updated successfully" 200 (),
       updateWhere (fun u => u.id == user.id)
         (fun u => { u with
           password := bcryptHash newPassword 8
           otp := none, otpExpire := none }) users)

/-! ### Validation gate

From `src/modules/middlewares/validate.middleware.js`. The declarative
validation engine (Joi) is out of scope per the design document; it is
modelled at its interface: a schema is an ordered list of rules, each
returning its human-readable message when violated, and
`schema.validate(payload, { abortEarly: false })` collects every violation in
schema order. -/

/-- A validation-error detail, carrying the human-readable message. -/
structure JoiErrorDetail where
  message : String
deriving Repr, DecidableEq

/-- Interface model of `schema.validate(payload, { abortEarly: false })`:
check all rules (not only the first failure) and produce the list of all
violation details in schema order, or no error value when every rule holds. -/
def joiValidate {α : Type} (rules : List (α → Option String)) (payload : α) :
    Option (List JoiErrorDetail) :=
  let details := rules.filterMap fun rule => (rule payload).map JoiErrorDetail.mk
  if details.isEmpty then none else some details

/-- Outcome of the validation middleware: a thrown `AppError`, or `next()`
with the payload untouched. -/
inductive ValidateOutcome (α : Type) where
  | thrown (e : AppError)
  | next (payload : α)
deriving Repr, DecidableEq

/-- The `validate(schema, target)` middleware applied to the designated
request section: on a validation error, throw an `AppError` whose message is
the list of the details' messages with status 400; otherwise pass through. -/
def validate {α : Type} (rules : List (α → Option String)) (payload : α) :
    ValidateOutcome α :=
  match joiValidate rules payload with
  | some error =>
    .thrown { message := .list (error.map JoiErrorDetail.message), statusCode := 400 }
  | none => .next payload

/-- The request body validated by `applyJobSchema` (`job.validations.js`):
three required string fields. -/
structure ApplyJobBody where
  jobId : Option String
  userTechSkills : Option String
  userSoftSkills : Option String
deriving Repr, DecidableEq

/-- `applyJobSchema` (`job.validations.js`): `jobId`, `userTechSkills` and
`userSoftSkills` are required strings; each missing field violates its
field's `required` rule with Joi's standard message. -/
def applyJobSchema : List (ApplyJobBody → Option String) :=
  [ fun b => if b.jobId = none then some "\"jobId\" is required" else none,
    fun b => if b.userTechSkills = none then some "\"userTechSkills\" is required" else none,
    fun b => if b.userSoftSkills = none then some "\"userSoftSkills\" is required" else none ]

/-! ### Company records and operations

From the company controller (`src/unnamed/part_001`) and
`DB/model/company.model.js` (`src/unnamed/part_000`). -/

/-- A stored `Company` document. -/
structure CompanyRec where
  id : String
  companyName : String
  description : String
  industry : String
  address : String
  numberOfEmployees : String
  companyEmail : String
  companyHR : String
deriving Repr, DecidableEq

/-- The request body of `addCompany` and `updateCompanyData`. -/
structure CompanyBody where
  companyName : String
  description : String
  industry : String
  address : String
  numberOfEmployees : String
  companyEmail : String
  companyHR : String
deriving Repr, DecidableEq

/-- `addCompany`: reject when a company with the same name or email exists
(status 400, message `Company already exists`), otherwise create it.
`newId` is the id generated by the store. -/
def addCompany (companies : List CompanyRec) (newId : String) (b : CompanyBody) :
    Resp Unit × List CompanyRec :=
  match companies.find? (fun c => c.companyName == b.companyName
      || c.companyEmail == b.companyEmail) with
  | some _ => (.err "Company already exists" 400, companies)
  | none =>
    (.ok "Company added successfully" 201 (),
     companies ++ [{
       id := newId, companyName := b.companyName
       description := b.description, industry := b.industry
       address := b.address, numberOfEmployees := b.numberOfEmployees
       companyEmail := b.companyEmail, companyHR := b.companyHR }])

/-- `updateCompanyData`: resolve the caller's company by
`companyHR == subjectId` (403 `Only the company owner can update the data`
when none); then 409 when another company already holds the new email or name;
otherwise apply the updates and respond with the updated record. -/
def updateCompanyData (companies : List CompanyRec) (uid : String) (b : CompanyBody) :
    Resp (Option CompanyRec) × List CompanyRec :=
  match companies.find? (fun c => c.companyHR == uid) with
  | none => (.err "Only the company owner can update the data" 403, companies)
  | some c =>
    let existingCompany := companies.find? fun e =>
      (e.companyName == b.companyName || e.companyEmail == b.companyEmail) && e.id != c.id
    let proceed : Resp (Option CompanyRec) × List CompanyRec :=
      let companies' := updateWhere (fun e => e.id == c.id)
        (fun e => { e with
          companyName := b.companyName, description := b.description
          industry := b.industry, address := b.address
          numberOfEmployees := b.numberOfEmployees
          companyEmail := b.companyEmail, companyHR := b.companyHR }) companies
      (.ok "Company data updated successfully" 200
        (companies'.find? fun e => e.id == c.id), companies')
    match existingCompany with
    | some e =>
      if e.companyEmail == b.companyEmail then (.err "Email already in use" 409, companies)
      else if e.companyName == b.companyName then
        (.err "Company name already in use" 409, companies)
      else proceed
    | none => proceed

/-! ### Job records and operations

From `src/modules/job/job.controller.js` and the company controller's
`getAllApplicationsForSpecificJob`. -/

/-- A stored `Job` document. -/
structure Job where
  id : String
  jobTitle : String
  jobLocation : String
  workingTime : String
  seniorityLevel : String
  jobDescription : String
  technicalSkills : List String
  softSkills : List String
  addedBy : String
deriving Repr, DecidableEq

/-- A stored `Application` document (`DB/model/application.model.js`). -/
structure Application where
  jobId : String
  userId : String
  userTechSkills : List String
  userSoftSkills : List String
  userResume : String
deriving Repr, DecidableEq

/-- The updatable job fields destructured from the request body; an absent
field leaves the stored value (the store strips undefined update keys). -/
structure JobBody where
  jobTitle : Option String
  jobLocation : Option String
  workingTime : Option String
  seniorityLevel : Option String
  jobDescription : Option String
  technicalSkills : Option (List String)
  softSkills : Option (List String)
deriving Repr, DecidableEq

/-- `findById` on jobs. -/
def findJob (jobs : List Job) (id : String) : Option Job :=
  jobs.find? fun j => j.id == id

/-- The update document `updateJob` passes to the store: the body fields plus
`addedBy := req.user.id`. -/
def applyJobUpdates (b : JobBody) (uid : String) (j : Job) : Job :=
  { id := j.id
    jobTitle := b.jobTitle.getD j.jobTitle
    jobLocation := b.jobLocation.getD j.jobLocation
    workingTime := b.workingTime.getD j.workingTime
    seniorityLevel := b.seniorityLevel.getD j.seniorityLevel
    jobDescription := b.jobDescription.getD j.jobDescription
    technicalSkills := b.technicalSkills.getD j.technicalSkills
    softSkills := b.softSkills.getD j.softSkills
    addedBy := uid }

/-- `updateJob` (`job.controller.js`): 404 `Job not found` when the target id
resolves to no job; 403 `Only the company owner can update the data` when the
fetched job's `addedBy` differs from the authenticated id; otherwise update
and respond with the updated job. -/
def updateJob (jobs : List Job) (uid id : String) (b : JobBody) :
    Resp Job × List Job :=
  match findJob jobs id with
  | none => (.err "Job not found" 404, jobs)
  | some j =>
    if j.addedBy != uid then
      (.err "Only the company owner can update the data" 403, jobs)
    else
      let job := applyJobUpdates b uid j
      (.ok "Job data updated successfully" 200 job,
       updateWhere (fun x => x.id == j.id) (fun _ => job) jobs)

/-- `deleteJob` (`job.controller.js`): 404 `Job not found` when the target id
resolves to no job; 403 `Only the company owner can delete the data` when the
fetched job's `addedBy` differs from the authenticated id; otherwise delete
and respond with the deleted job. -/
def deleteJob (jobs : List Job) (uid id : String) : Resp Job × List Job :=
  match findJob jobs id with
  | none => (.err "Job not found" 404, jobs)
  | some j =>
    if j.addedBy != uid then
      (.err "Only the company owner can delete the data" 403, jobs)
    else
      (.ok "Job data deleted successfully" 200 j,
       removeWhere (fun x => x.id == j.id) jobs)

/-- Result of the applications view: an error response, or 200 with the
applications list (its success body carries no message field). -/
inductive AppsResult where
  | err (message : String) (status : Nat)
  | ok (status : Nat) (applications : List Application)
deriving Repr, DecidableEq

/-- `getAllApplicationsForSpecificJob` (company controller): 404 `Job not
found` when the target id resolves to no job; when the fetched job's
`addedBy` differs from the authenticated id, fail with status 498 and message
`Only the owner can view the applications for their jobs` (the source uses
498 here, not 403); otherwise respond with the job's applications. -/
def getAllApplicationsForSpecificJob (jobs : List Job) (apps : List Application)
    (uid id : String) : AppsResult :=
  match findJob jobs id with
  | none => .err "Job not found" 404
  | some job =>
    if job.addedBy != uid then
      .err "Only the owner can view the applications for their jobs" 498
    else
      .ok 200 (apps.filter fun a => a.jobId == job.id)

/-- `applyToJob` (`job.controller.js`), after the Parse stage has decoded the
two skill lists: 404 `Job not found` when the target job is absent; 400
`Resume file is required` (a direct response in the source, observably the
same shape) when no file was attached; otherwise upload the file (the
asset-store call, out of scope, is the function `upload` from the local file
path to the durable URL; this models the successful-upload path), append
exactly one `Application` referencing the job, the authenticated applicant,
the decoded skill lists and the uploaded URL, unlink the local file, and
respond 201. -/
def applyToJob (jobs : List Job) (apps : List Application) (uid jobId : String)
    (userTechSkills userSoftSkills : List String) (file : Option String)
    (upload : String → String) : Resp Unit × List Application :=
  match findJob jobs jobId with
  | none => (.err "Job not found" 404, apps)
  | some job =>
    match file with
    | none => (.err "Resume file is required" 400, apps)
    | some path =>
      let fileUrl := upload path
      let newApplication : Application :=
        { jobId := job.id, userId := uid, userTechSkills := userTechSkills
          userSoftSkills := userSoftSkills, userResume := fileUrl }
      (.ok "Application submitted successfully" 201 (), apps ++ [newApplication])

/-! ### Demonstration records for concrete evaluations -/

/-- A demonstration user whose stored password is a bcrypt hash of
`Passw0rd1`. -/
def demoUser : UserRec :=
  { id := "u1", firstName := "Jane", lastName := "Doe", username := "janedoe"
    email := "jane@example.com", password := bcryptHash "Passw0rd1" 8
    recoveryEmail := "jane.rec@example.com", DOB := "1990-01-01"
    mobileNumber := "01012345678", role := "User", status := "offline"
    otp := none, otpExpire := none }

/-- The demonstration user with an active password-recovery OTP generated at
time 0 (so the stored expiry is 600000 ms). -/
def demoUserOtp : UserRec :=
  { demoUser with otp := some "123456", otpExpire := some 600000 }

/-- The demonstration user with status `online`. -/
def demoUserOnline : UserRec :=
  { demoUser with status := "online" }

/-- A second, distinct user (for uniqueness-conflict scenarios). -/
def otherUser : UserRec :=
  { demoUser with
    id := "u2", firstName := "Bob", lastName := "Smith", username := "bobsmith"
    email := "bob@example.com", mobileNumber := "01098765432"
    recoveryEmail := "bob.rec@example.com" }

/-- A demonstration job owned by user `u1`. -/
def demoJob : Job :=
  { id := "j1", jobTitle := "Backend Developer", jobLocation := "onsite"
    workingTime := "full-time", seniorityLevel := "Junior"
    jobDescription := "NodeJS backend role", technicalSkills := ["node"]
    softSkills := ["teamwork"], addedBy := "u1" }

/-- A demonstration company whose HR owner is user `u1`. -/
def demoCompany : CompanyRec :=
  { id := "c1", companyName := "Acme", description := "Widgets"
    industry := "Manufacturing", address := "Cairo"
    numberOfEmployees := "11-20 employees", companyEmail := "hr@acme.example"
    companyHR := "u1" }

/-- A second, distinct company owned by user `u3`. -/
def otherCompany : CompanyRec :=
  { id := "c2", companyName := "Globex", description := "Gadgets"
    industry := "Tech", address := "Giza"
    numberOfEmployees := "1-10 employees", companyEmail := "hr@globex.example"
    companyHR := "u3" }

/-! ### Helper lemmas -/

/-- `filterMap` keeps exactly the elements whose image is `some`. -/
theorem length_filterMap_eq_length_filter {α β : Type} (f : α → Option β) :
    ∀ l : List α, (l.filterMap f).length = (l.filter fun a => (f a).isSome).length := by
  intro l
  induction l with
  | nil => rfl
  | cons x xs ih =>
    cases h : f x <;> simp [List.filterMap_cons, List.filter_cons, h, ih]

/-- `joiValidate` produces exactly the violation messages of the rules, tagged
as details, and no error value when there are none. -/
theorem joiValidate_characterization {α : Type} (rules : List (α → Option String))
    (payload : α) :
    joiValidate rules payload =
      if (rules.filterMap fun rule => rule payload) = [] then none
      else some ((rules.filterMap fun rule => rule payload).map JoiErrorDetail.mk) := by
  unfold joiValidate
  have hde : (rules.filterMap fun rule => (rule payload).map JoiErrorDetail.mk)
      = (rules.filterMap fun rule => rule payload).map JoiErrorDetail.mk := by
    induction rules with
    | nil => rfl
    | cons r rs ih => cases h : r payload <;> simp [List.filterMap_cons, h, ih]
  rw [hde]
  by_cases h : (rules.filterMap fun rule => rule payload) = [] <;> simp [h]

/-- Updating the record with a given id rewrites exactly that record, provided
the ids are distinct, the record is present, and the update keeps the id. -/
theorem findById_updateWhere_of_nodup (users : List UserRec) (u : UserRec)
    (f : UserRec → UserRec) (hmem : u ∈ users)
    (hnodup : (users.map UserRec.id).Nodup) (hid : (f u).id = u.id) :
    findById (updateWhere (fun x => x.id == u.id) f users) u.id = some (f u) := by
  induction users with
  | nil => cases hmem
  | cons w ws ih =>
    rw [List.map_cons, List.nodup_cons] at hnodup
    rcases List.mem_cons.mp hmem with rfl | hmem'
    · simp [updateWhere, findById, List.find?_cons, hid]
    · have hw : (w.id == u.id) = false := by
        refine beq_eq_false_iff_ne.mpr fun he => hnodup.1 ?_
        exact he ▸ List.mem_map_of_mem UserRec.id hmem'
      have h1 : updateWhere (fun x => x.id == u.id) f (w :: ws)
          = w :: updateWhere (fun x => x.id == u.id) f ws := by
        simp [updateWhere, hw]
      have h2 : findById (w :: updateWhere (fun x => x.id == u.id) f ws) u.id
          = findById (updateWhere (fun x => x.id == u.id) f ws) u.id := by
        simp [findById, List.find?_cons, hw]
      rw [h1, h2]
      exact ih hmem' hnodup.2

/-- C1: the identity-verification middleware is a three-way guard: a missing
token header yields 401 "Please SignIn"; a present token failing verification
(malformed, wrong secret, or expired) yields 498 "Invalid token"; a verified
token whose decoded role differs from a configured required role yields 403
"Not enough privileges"; otherwise the decoded identity is attached and the
pipeline proceeds. -/
theorem auth_three_way_guard (role : Option String) (tokenHeader : Option Token) (now : Nat) :
    (tokenHeader = none → auth role tokenHeader now = .err "Please SignIn" 401) ∧
    (∀ t, tokenHeader = some t → jwtVerify t "secret" now = none →
      auth role tokenHeader now = .err "Invalid token" 498) ∧
    (∀ t d r, tokenHeader = some t → jwtVerify t "secret" now = some d →
      role = some r → d.role ≠ r →
      auth role tokenHeader now = .err "Not enough privileges" 403) ∧
    (∀ t d, tokenHeader = some t → jwtVerify t "secret" now = some d →
      (role = none ∨ role = some d.role) →
      auth role tokenHeader now = .ok d) := by
  refine ⟨?_, ?_, ?_, ?_⟩
  · rintro rfl; rfl
  · rintro t rfl hv
    simp [auth, hv]
  · rintro t d r rfl hv rfl hne
    simp [auth, hv, hne]
  · rintro t d rfl hv hrole
    rcases hrole with rfl | rfl
    · simp [auth, hv]
    · simp [auth, hv]

/-- Witness for C1 at concrete inputs: a missing header gives 401; a token
signed with a wrong secret gives 498; a verified token with the wrong role
gives 403; a verified matching token is attached. -/
theorem auth_three_way_guard_witness :
    auth none none 0 = .err "Please SignIn" 401 ∧
    auth none (some (jwtSign ⟨"u1", "janedoe", "jane@example.com", "User"⟩ "other" 1000 0)) 5
      = .err "Invalid token" 498 ∧
    auth (some "Company_HR")
      (some (jwtSign ⟨"u1", "janedoe", "jane@example.com", "User"⟩ "secret" 1000 0)) 5
      = .err "Not enough privileges" 403 ∧
    auth (some "User")
      (some (jwtSign ⟨"u1", "janedoe", "jane@example.com", "User"⟩ "secret" 1000 0)) 5
      = .ok ⟨"u1", "janedoe", "jane@example.com", "User"⟩ := by
  refine ⟨(auth_three_way_guard none none 0).1 rfl, ?_, ?_, ?_⟩
  · exact (auth_three_way_guard none _ 5).2.1 _ rfl (by decide)
  · exact (auth_three_way_guard (some "Company_HR") _ 5).2.2.1 _
      ⟨"u1", "janedoe", "jane@example.com", "User"⟩ "Company_HR" rfl (by decide) rfl (by decide)
  · exact (auth_three_way_guard (some "User") _ 5).2.2.2 _
      ⟨"u1", "janedoe", "jane@example.com", "User"⟩ rfl (by decide) (Or.inr rfl)

/-- C2: the sign-in/verify round trip is broken in the code. `SignIn` signs
the token with the configured `JWT_SECRET`, but the `auth` middleware verifies
against the hard-coded literal `'secret'`; so under any configuration whose
secret is not the literal string `secret`, a freshly issued token presented
well before its expiry is rejected with 498 instead of being accepted. The
evaluation below exhibits this at a concrete input. -/
theorem signIn_token_rejected_by_auth :
    (SignIn { jwtSecret := "app-secret", jwtExpiresIn := 3600000, bcryptSaltRounds := 8 }
        [demoUser] "jane@example.com" "Passw0rd1" 0).1
      = .ok "SignIn successfully" 200
          (Token.signed
            { payload := ⟨"u1", "janedoe", "jane@example.com", "User"⟩
              secret := "app-secret", exp := 3600000 }) ∧
    auth none
      (some (Token.signed
        { payload := ⟨"u1", "janedoe", "jane@example.com", "User"⟩
          secret := "app-secret", exp := 3600000 })) 1
      = .err "Invalid token" 498 := by
  constructor
  · rfl
  · rfl

/-- C3: the validation gate collects every violation, not only the first: a
payload of the validated section violating N schema rules is rejected with a
thrown 400 whose message is the ordered list of all N human-readable
violation messages, and the boundary handler delivers that message to the
caller as a list (not flattened); a payload with zero violations passes
through the gate unchanged. -/
theorem validate_collects_all_violations {α : Type}
    (rules : List (α → Option String)) (payload : α) :
    ((rules.filterMap fun rule => rule payload) ≠ [] →
      validate rules payload = .thrown
        { message := .list (rules.filterMap fun rule => rule payload)
          statusCode := 400 } ∧
      errorHandler
          { message := .list (rules.filterMap fun rule => rule payload)
            statusCode := 400 }
        = { status := 400
            message := .list (rules.filterMap fun rule => rule payload) } ∧
      (rules.filterMap fun rule => rule payload).length
        = (rules.filter fun rule => (rule payload).isSome).length) ∧
    ((rules.filterMap fun rule => rule payload) = [] →
      validate rules payload = .next payload) := by
  constructor
  · intro hne
    refine ⟨?_, rfl, length_filterMap_eq_length_filter _ rules⟩
    unfold validate
    rw [joiValidate_characterization]
    have hco : (JoiErrorDetail.message ∘ JoiErrorDetail.mk) = id := funext fun a => rfl
    simp [hne, hco]
  · intro h
    unfold validate
    rw [joiValidate_characterization]
    simp [h]

/-- Witness for C3 at the `applyToJob` body schema: a body missing its two
skill fields is rejected with 400 and exactly the two violation messages, in
schema order, as a list; a complete body passes through unchanged. -/
theorem validate_collects_all_violations_witness :
    validate applyJobSchema ⟨some "42", none, none⟩
      = .thrown
        { message := .list
            ["\"userTechSkills\" is required", "\"userSoftSkills\" is required"]
          statusCode := 400 } ∧
    validate applyJobSchema ⟨some "42", some "[\"a\"]", some "[]"⟩
      = .next ⟨some "42", some "[\"a\"]", some "[]"⟩ := by
  constructor
  · exact (((validate_collects_all_violations applyJobSchema
      ⟨some "42", none, none⟩).1 (by decide)).1).trans (by decide)
  · exact (validate_collects_all_violations applyJobSchema
      ⟨some "42", some "[\"a\"]", some "[]"⟩).2 (by decide)

/-- C4 counterexample: a non-owner viewing an existing job's applications is
rejected with status 498, not the 403 the claim states — the source's
`getAllApplicationsForSpecificJob` throws its ownership error with code 498. -/
theorem viewApplications_ownership_not_403 :
    getAllApplicationsForSpecificJob [demoJob] [] "u2" "j1"
      = .err "Only the owner can view the applications for their jobs" 498 ∧
    (498 : Nat) ≠ 403 := by
  exact ⟨rfl, by decide⟩

/-- C4 (amended): for an existing job, when the authenticated id differs from
the stored `addedBy`, job update and job delete fail with 403 and a message
naming the expected owner relationship, while viewing the job's applications
fails with status 498 (not 403) and its owner-naming message; when the ids
are equal, the owner's update, delete and applications-view requests all
succeed with status 200. -/
theorem ownership_guard (jobs : List Job) (apps : List Application)
    (uid id : String) (b : JobBody) (j : Job)
    (hfind : findJob jobs id = some j) :
    (j.addedBy ≠ uid →
      updateJob jobs uid id b
        = (.err "Only the company owner can update the data" 403, jobs) ∧
      deleteJob jobs uid id
        = (.err "Only the company owner can delete the data" 403, jobs) ∧
      getAllApplicationsForSpecificJob jobs apps uid id
        = .err "Only the owner can view the applications for their jobs" 498) ∧
    (j.addedBy = uid →
      (updateJob jobs uid id b).1
        = .ok "Job data updated successfully" 200 (applyJobUpdates b uid j) ∧
      (deleteJob jobs uid id).1 = .ok "Job data deleted successfully" 200 j ∧
      getAllApplicationsForSpecificJob jobs apps uid id
        = .ok 200 (apps.filter fun a => a.jobId == j.id)) := by
  constructor
  · intro h
    refine ⟨?_, ?_, ?_⟩ <;>
      simp [updateJob, deleteJob, getAllApplicationsForSpecificJob, hfind, h]
  · intro h
    refine ⟨?_, ?_, ?_⟩ <;>
      simp [updateJob, deleteJob, getAllApplicationsForSpecificJob, hfind, h]

/-- Witness for C4 at concrete inputs: the non-owner `u2` gets 403 on update
of the existing job `j1`, and the owner `u1` succeeds deleting it. -/
theorem ownership_guard_witness :
    updateJob [demoJob] "u2" "j1" ⟨none, none, none, none, none, none, none⟩
      = (.err "Only the company owner can update the data" 403, [demoJob]) ∧
    (deleteJob [demoJob] "u1" "j1").1
      = .ok "Job data deleted successfully" 200 demoJob := by
  constructor
  · exact ((ownership_guard [demoJob] [] "u2" "j1"
      ⟨none, none, none, none, none, none, none⟩ demoJob rfl).1 (by decide)).1
  · exact ((ownership_guard [demoJob] [] "u1" "j1"
      ⟨none, none, none, none, none, none, none⟩ demoJob rfl).2 rfl).2.1

/-- C5: existence is checked before ownership in all three fetch-by-id
operations: a nonexistent target id yields 404 for every caller (including a
caller who would also have failed the ownership check), and the ownership
error of each operation can only arise when the target job exists. -/
theorem existence_checked_before_ownership (jobs : List Job)
    (apps : List Application) (uid id : String) (b : JobBody) :
    (findJob jobs id = none →
      updateJob jobs uid id b = (.err "Job not found" 404, jobs) ∧
      deleteJob jobs uid id = (.err "Job not found" 404, jobs) ∧
      getAllApplicationsForSpecificJob jobs apps uid id
        = .err "Job not found" 404) ∧
    ((updateJob jobs uid id b).1
        = .err "Only the company owner can update the data" 403 →
      ∃ j, findJob jobs id = some j) ∧
    ((deleteJob jobs uid id).1
        = .err "Only the company owner can delete the data" 403 →
      ∃ j, findJob jobs id = some j) ∧
    (getAllApplicationsForSpecificJob jobs apps uid id
        = .err "Only the owner can view the applications for their jobs" 498 →
      ∃ j, findJob jobs id = some j) := by
  refine ⟨?_, ?_, ?_, ?_⟩
  · intro h
    refine ⟨?_, ?_, ?_⟩ <;>
      simp [updateJob, deleteJob, getAllApplicationsForSpecificJob, h]
  all_goals
    cases hf : findJob jobs id with
    | none =>
      intro h
      simp [updateJob, deleteJob, getAllApplicationsForSpecificJob, hf] at h
    | some j => exact fun _ => ⟨j, rfl⟩

/-- Witness for C5 at concrete inputs: a nonexistent job id yields 404 for
the non-owner caller `u2` on all three operations, and a 403 from `updateJob`
entails the job exists. -/
theorem existence_checked_before_ownership_witness :
    (updateJob [demoJob] "u2" "nope" ⟨none, none, none, none, none, none, none⟩
      = (.err "Job not found" 404, [demoJob]) ∧
     deleteJob [demoJob] "u2" "nope" = (.err "Job not found" 404, [demoJob]) ∧
     getAllApplicationsForSpecificJob [demoJob] [] "u2" "nope"
      = .err "Job not found" 404) ∧
    (∃ j, findJob [demoJob] "j1" = some j) := by
  constructor
  · exact (existence_checked_before_ownership [demoJob] [] "u2" "nope"
      ⟨none, none, none, none, none, none, none⟩).1 (by decide)
  · exact (existence_checked_before_ownership [demoJob] [] "u2" "j1"
      ⟨none, none, none, none, none, none, none⟩).2.1 (by decide)

/-- C6: application submission. For an existing target job: with no resume
file attached, the call returns 400 `Resume file is required` and creates no
`Application` record; with a resume attached and a successful upload, exactly
one `Application` record is appended, referencing the job id, the
authenticated applicant, the decoded skill lists and the uploaded asset URL,
and the response is 201 with the fixed confirmation message `Application
submitted successfully`, which contains no application identifier. -/
theorem applyToJob_contract (jobs : List Job) (apps : List Application)
    (uid jobId : String) (ts ss : List String) (upload : String → String)
    (job : Job) (hfind : findJob jobs jobId = some job) :
    applyToJob jobs apps uid jobId ts ss none upload
      = (.err "Resume file is required" 400, apps) ∧
    (∀ path, applyToJob jobs apps uid jobId ts ss (some path) upload
      = (.ok "Application submitted successfully" 201 (),
         apps ++ [{
           jobId := job.id, userId := uid, userTechSkills := ts
           userSoftSkills := ss, userResume := upload path }])) := by
  constructor
  · simp [applyToJob, hfind]
  · intro path
    simp [applyToJob, hfind]

/-- Witness for C6 at concrete inputs: submitting to the existing job `j1`
without a resume yields 400 and leaves the application store empty; with a
resume, exactly one application referencing the uploaded URL is created. -/
theorem applyToJob_contract_witness :
    applyToJob [demoJob] [] "u9" "j1" ["node"] ["teamwork"] none
        (fun p => "https://cdn.example/" ++ p)
      = (.err "Resume file is required" 400, []) ∧
    applyToJob [demoJob] [] "u9" "j1" ["node"] ["teamwork"] (some "tmp/cv.pdf")
        (fun p => "https://cdn.example/" ++ p)
      = (.ok "Application submitted successfully" 201 (),
         [{ jobId := "j1", userId := "u9", userTechSkills := ["node"]
            userSoftSkills := ["teamwork"]
            userResume := "https://cdn.example/tmp/cv.pdf" }]) := by
  constructor
  · exact (applyToJob_contract [demoJob] [] "u9" "j1" ["node"] ["teamwork"]
      (fun p => "https://cdn.example/" ++ p) demoJob rfl).1
  · exact ((applyToJob_contract [demoJob] [] "u9" "j1" ["node"] ["teamwork"]
      (fun p => "https://cdn.example/" ++ p) demoJob rfl).2 "tmp/cv.pdf").trans
      (by decide)

/-- C7: OTP verification honours the 10-minute window. For a user found by
email or mobile whose stored OTP matches the submitted code and whose stored
expiry is generation time + 600000 ms (as `forgetPassword` sets it): a call
arriving strictly after that instant fails with 400 `OTP expired` and leaves
the store unchanged; a call arriving at or before it succeeds with 200
`Password updated successfully`, and in the resulting store the user's
password is the hash of the new password and both `otp` and `otpExpire` are
cleared. -/
theorem otp_expiry_contract (users : List UserRec)
    (key otpStr newPassword : String) (genTime now : Nat) (u : UserRec)
    (hfind : findByEmailOrMobile users key = some u)
    (hotp : u.otp = some otpStr)
    (hexp : u.otpExpire = some (genTime + 600000))
    (hnodup : (users.map UserRec.id).Nodup) :
    (genTime + 600000 < now →
      verifyOTPAndSetNewPassword users key otpStr newPassword now
        = (.err "OTP expired" 400, users)) ∧
    (now ≤ genTime + 600000 →
      (verifyOTPAndSetNewPassword users key otpStr newPassword now).1
        = .ok "Password updated successfully" 200 () ∧
      findById (verifyOTPAndSetNewPassword users key otpStr newPassword now).2 u.id
        = some { u with
            password := bcryptHash newPassword 8
            otp := none, otpExpire := none }) := by
  have hmem : u ∈ users := List.mem_of_find?_eq_some hfind
  constructor
  · intro hlt
    simp [verifyOTPAndSetNewPassword, hfind, hotp, hexp, hlt]
  · intro hle
    have hnot : ¬ u.otpExpire.getD 0 < now := by
      rw [hexp]
      exact Nat.not_lt.mpr hle
    refine ⟨by simp [verifyOTPAndSetNewPassword, hfind, hotp, hnot], ?_⟩
    have hres := findById_updateWhere_of_nodup users u
      (fun v => { v with
        password := bcryptHash newPassword 8
        otp := none, otpExpire := none }) hmem hnodup rfl
    simpa [verifyOTPAndSetNewPassword, hfind, hotp, hnot] using hres

/-- Witness for C7: with the demonstration user's OTP generated at time 0,
verification at 600001 ms fails with `OTP expired`, and verification at
600000 ms succeeds and clears the pair while storing the new hash. -/
theorem otp_expiry_contract_witness :
    verifyOTPAndSetNewPassword [demoUserOtp] "jane@example.com" "123456"
        "NewPass1" 600001
      = (.err "OTP expired" 400, [demoUserOtp]) ∧
    findById (verifyOTPAndSetNewPassword [demoUserOtp] "jane@example.com"
        "123456" "NewPass1" 600000).2 "u1"
      = some { demoUserOtp with
          password := bcryptHash "NewPass1" 8
          otp := none, otpExpire := none } := by
  constructor
  · exact (otp_expiry_contract [demoUserOtp] "jane@example.com" "123456"
      "NewPass1" 0 600001 demoUserOtp rfl (by decide) (by decide)
      (by decide)).1 (by decide)
  · exact ((otp_expiry_contract [demoUserOtp] "jane@example.com" "123456"
      "NewPass1" 0 600000 demoUserOtp rfl (by decide) (by decide)
      (by decide)).2 (by decide)).2

/-- C8 counterexample: duplicate detection at sign-up and at company creation
rejects with status 400 (`Email already exists` / `Company already exists`),
not the Conflict status 409 the claim asserts for every uniqueness
rejection. -/
theorem duplicate_at_creation_not_409 :
    (signUp { jwtSecret := "app-secret", jwtExpiresIn := 3600000, bcryptSaltRounds := 8 }
        [demoUser] "u7"
        { firstName := "Jane", lastName := "Doe", email := "jane@example.com"
          password := "Passw0rd1", DOB := "1990-01-01"
          mobileNumber := "01012345678", recoveryEmail := "j@r.example"
          role := none }).1
      = .err "Email already exists" 400 ∧
    (addCompany [demoCompany] "c7"
        { companyName := "Acme", description := "dup", industry := "Tech"
          address := "Cairo", numberOfEmployees := "1-10 employees"
          companyEmail := "fresh@acme.example", companyHR := "u1" }).1
      = .err "Company already exists" 400 ∧
    (400 : Nat) ≠ 409 := by
  exact ⟨rfl, rfl, by decide⟩

/-- C8 (amended): uniqueness rejections at account update and company update
fail with the Conflict status 409, while duplicate email/mobile at sign-up
fails with 400 `Email already exists` and duplicate company name/email at
company creation fails with 400 `Company already exists`. -/
theorem uniqueness_conflict_statuses (cfg : Config) (users : List UserRec)
    (companies : List CompanyRec) (uid newId : String) (sb : SignUpBody)
    (ab : UpdateAccountBody) (cb : CompanyBody) (x e w : UserRec)
    (c ec wc : CompanyRec) :
    (users.find? (fun v => v.email == sb.email || v.mobileNumber == sb.mobileNumber)
        = some w →
      signUp cfg users newId sb = (.err "Email already exists" 400, users)) ∧
    (companies.find? (fun v => v.companyName == cb.companyName
        || v.companyEmail == cb.companyEmail) = some wc →
      addCompany companies newId cb = (.err "Company already exists" 400, companies)) ∧
    (findById users uid = some x → x.status ≠ "offline" →
      users.find? (fun v => (v.email == ab.email || v.mobileNumber == ab.mobileNumber)
          && v.id != uid) = some e →
      ∃ m, updateAccount users uid ab = (.err m 409, users)) ∧
    (companies.find? (fun v => v.companyHR == uid) = some c →
      companies.find? (fun v => (v.companyName == cb.companyName
          || v.companyEmail == cb.companyEmail) && v.id != c.id) = some ec →
      ∃ m, updateCompanyData companies uid cb = (.err m 409, companies)) := by
  refine ⟨?_, ?_, ?_, ?_⟩
  · intro hdup
    simp [signUp, hdup]
  · intro hdup
    simp [addCompany, hdup]
  · intro hx hs hdup
    have hsx : (x.status == "offline") = false := beq_eq_false_iff_ne.mpr hs
    have hp := List.find?_some hdup
    simp only [Bool.and_eq_true, Bool.or_eq_true] at hp
    by_cases he : (e.email == ab.email) = true
    · exact ⟨"Email already in use", by simp [updateAccount, hx, hsx, hdup, he]⟩
    · have hm : (e.mobileNumber == ab.mobileNumber) = true := hp.1.resolve_left he
      exact ⟨"Mobile number already in use",
        by simp [updateAccount, hx, hsx, hdup, he, hm]⟩
  · intro hc hdup
    have hp := List.find?_some hdup
    simp only [Bool.and_eq_true, Bool.or_eq_true] at hp
    by_cases he : (ec.companyEmail == cb.companyEmail) = true
    · exact ⟨"Email already in use", by simp [updateCompanyData, hc, hdup, he]⟩
    · have hm : (ec.companyName == cb.companyName) = true := hp.1.resolve_right he
      exact ⟨"Company name already in use",
        by simp [updateCompanyData, hc, hdup, he, hm]⟩

/-- Witness for C8 at concrete inputs: a sign-up with an existing email gets
400; creating a company with an existing name gets 400; an account update
taking another user's email gets 409; a company update taking another
company's name gets 409. -/
theorem uniqueness_conflict_statuses_witness :
    signUp { jwtSecret := "s", jwtExpiresIn := 1000, bcryptSaltRounds := 8 }
        [demoUser] "u8"
        { firstName := "Jan", lastName := "Doe", email := "jane@example.com"
          password := "Passw0rd2", DOB := "1991-01-01"
          mobileNumber := "01012345699", recoveryEmail := "a@b.example"
          role := none }
      = (.err "Email already exists" 400, [demoUser]) ∧
    addCompany [demoCompany] "c8"
        { companyName := "Acme", description := "x", industry := "y"
          address := "z", numberOfEmployees := "1-10 employees"
          companyEmail := "other@acme.example", companyHR := "u1" }
      = (.err "Company already exists" 400, [demoCompany]) ∧
    (∃ m, updateAccount [demoUserOnline, otherUser] "u1"
        { email := "bob@example.com", mobileNumber := "01012345678"
          recoveryEmail := "r@r.example", DOB := "1990-01-01"
          lastName := "Doe", firstName := "Jane" }
      = (.err m 409, [demoUserOnline, otherUser])) ∧
    (∃ m, updateCompanyData [demoCompany, otherCompany] "u1"
        { companyName := "Globex", description := "d", industry := "i"
          address := "a", numberOfEmployees := "1-10 employees"
          companyEmail := "hr@acme.example", companyHR := "u1" }
      = (.err m 409, [demoCompany, otherCompany])) := by
  refine ⟨?_, ?_, ?_, ?_⟩
  · exact (uniqueness_conflict_statuses
      { jwtSecret := "s", jwtExpiresIn := 1000, bcryptSaltRounds := 8 }
      [demoUser] [] "u0" "u8"
      { firstName := "Jan", lastName := "Doe", email := "jane@example.com"
        password := "Passw0rd2", DOB := "1991-01-01"
        mobileNumber := "01012345699", recoveryEmail := "a@b.example"
        role := none }
      { email := "", mobileNumber := "", recoveryEmail := "", DOB := ""
        lastName := "", firstName := "" }
      { companyName := "", description := "", industry := "", address := ""
        numberOfEmployees := "", companyEmail := "", companyHR := "" }
      demoUser demoUser demoUser demoCompany demoCompany demoCompany).1 (by decide)
  · exact (uniqueness_conflict_statuses
      { jwtSecret := "s", jwtExpiresIn := 1000, bcryptSaltRounds := 8 }
      [] [demoCompany] "u0" "c8"
      { firstName := "", lastName := "", email := "", password := "", DOB := ""
        mobileNumber := "", recoveryEmail := "", role := none }
      { email := "", mobileNumber := "", recoveryEmail := "", DOB := ""
        lastName := "", firstName := "" }
      { companyName := "Acme", description := "x", industry := "y"
        address := "z", numberOfEmployees := "1-10 employees"
        companyEmail := "other@acme.example", companyHR := "u1" }
      demoUser demoUser demoUser demoCompany demoCompany demoCompany).2.1 (by decide)
  · exact (uniqueness_conflict_statuses
      { jwtSecret := "s", jwtExpiresIn := 1000, bcryptSaltRounds := 8 }
      [demoUserOnline, otherUser] [] "u1" "n"
      { firstName := "", lastName := "", email := "", password := "", DOB := ""
        mobileNumber := "", recoveryEmail := "", role := none }
      { email := "bob@example.com", mobileNumber := "01012345678"
        recoveryEmail := "r@r.example", DOB := "1990-01-01"
        lastName := "Doe", firstName := "Jane" }
      { companyName := "", description := "", industry := "", address := ""
        numberOfEmployees := "", companyEmail := "", companyHR := "" }
      demoUserOnline otherUser demoUser demoCompany demoCompany
      demoCompany).2.2.1 (by decide) (by decide) (by decide)
  · exact (uniqueness_conflict_statuses
      { jwtSecret := "s", jwtExpiresIn := 1000, bcryptSaltRounds := 8 }
      [] [demoCompany, otherCompany] "u1" "n"
      { firstName := "", lastName := "", email := "", password := "", DOB := ""
        mobileNumber := "", recoveryEmail := "", role := none }
      { email := "", mobileNumber := "", recoveryEmail := "", DOB := ""
        lastName := "", firstName := "" }
      { companyName := "Globex", description := "d", industry := "i"
        address := "a", numberOfEmployees := "1-10 employees"
        companyEmail := "hr@acme.example", companyHR := "u1" }
      demoUser demoUser demoUser demoCompany otherCompany
      demoCompany).2.2.2 (by decide) (by decide)

/-- C9: the `offline` status gate. For an authenticated identity resolving to
a stored user: when the stored status is `offline`, each of `updateAccount`,
`deleteAccount` and `getUserData` fails with 401 `LogIn first` and leaves the
store unchanged; when the stored status is `online`, each proceeds past the
status gate (`updateAccount` never produces that 401, `deleteAccount` and
`getUserData` succeed with 200). -/
theorem offline_status_gate (users : List UserRec) (uid : String)
    (b : UpdateAccountBody) (x : UserRec)
    (hfind : findById users uid = some x) :
    (x.status = "offline" →
      updateAccount users uid b = (.err "LogIn first" 401, users) ∧
      deleteAccount users uid = (.err "LogIn first" 401, users) ∧
      getUserData users uid = .err "LogIn first" 401) ∧
    (x.status = "online" →
      (updateAccount users uid b).1 ≠ .err "LogIn first" 401 ∧
      (deleteAccount users uid).1
        = .ok "Account deleted successfully" 200 (findById users uid) ∧
      getUserData users uid = .ok "Success" 200 x) := by
  constructor
  · intro hs
    refine ⟨?_, ?_, ?_⟩ <;>
      simp [updateAccount, deleteAccount, getUserData, hfind, hs]
  · intro hs
    have hsx : (x.status == "offline") = false := by simp [hs]
    refine ⟨?_, ?_, ?_⟩
    · simp only [updateAccount, hfind, hsx]
      cases hfe : users.find? (fun v =>
          (v.email == b.email || v.mobileNumber == b.mobileNumber) && v.id != uid) with
      | none => simp [hfe]
      | some e =>
        simp only [hfe]
        split_ifs <;> simp_all
    · simp [deleteAccount, hfind, hsx]
    · simp [getUserData, hfind, hsx]

/-- Witness for C9: the offline demonstration user is blocked with 401
`LogIn first` on all three operations; once online, `getUserData` succeeds. -/
theorem offline_status_gate_witness :
    (updateAccount [demoUser] "u1"
        { email := "jane@example.com", mobileNumber := "01012345678"
          recoveryEmail := "jane.rec@example.com", DOB := "1990-01-01"
          lastName := "Doe", firstName := "Jane" }
      = (.err "LogIn first" 401, [demoUser]) ∧
     deleteAccount [demoUser] "u1" = (.err "LogIn first" 401, [demoUser]) ∧
     getUserData [demoUser] "u1" = .err "LogIn first" 401) ∧
    getUserData [demoUserOnline] "u1" = .ok "Success" 200 demoUserOnline := by
  constructor
  · exact (offline_status_gate [demoUser] "u1"
      { email := "jane@example.com", mobileNumber := "01012345678"
        recoveryEmail := "jane.rec@example.com", DOB := "1990-01-01"
        lastName := "Doe", firstName := "Jane" }
      demoUser rfl).1 rfl
  · exact ((offline_status_gate [demoUserOnline] "u1"
      { email := "jane@example.com", mobileNumber := "01012345678"
        recoveryEmail := "jane.rec@example.com", DOB := "1990-01-01"
        lastName := "Doe", firstName := "Jane" }
      demoUserOnline rfl).2 rfl).2.2

/-- C10 counterexample: an expired-OTP verification on a matching OTP fails
with `OTP expired` and leaves the store — including the user's `otp` and
`otpExpire` — completely unchanged, contradicting the claim that the pair is
cleared on the expiry check. -/
theorem otp_not_cleared_on_expiry :
    verifyOTPAndSetNewPassword [demoUserOtp] "jane@example.com" "123456"
        "Fresh1Pass" 700000
      = (.err "OTP expired" 400, [demoUserOtp]) ∧
    demoUserOtp.otp = some "123456" ∧
    demoUserOtp.otpExpire = some 600000 := by
  exact ⟨rfl, rfl, rfl⟩

/-- C10 (amended): when the expiry check finds the OTP expired, the call
fails with 400 `OTP expired` and the store is left entirely unchanged — the
stored `otp`, `otpExpire` and password are all untouched; the pair is cleared
only on successful use. -/
theorem otp_state_unchanged_on_expiry (users : List UserRec)
    (key otpStr newPassword : String) (now : Nat) (u : UserRec)
    (hfind : findByEmailOrMobile users key = some u)
    (hotp : u.otp = some otpStr)
    (hexp : u.otpExpire.getD 0 < now) :
    verifyOTPAndSetNewPassword users key otpStr newPassword now
      = (.err "OTP expired" 400, users) := by
  simp [verifyOTPAndSetNewPassword, hfind, hotp, hexp]

/-- Witness for C10: the expired verification at 900000 ms returns the error
and the unchanged singleton store. -/
theorem otp_state_unchanged_on_expiry_witness :
    verifyOTPAndSetNewPassword [demoUserOtp] "jane@example.com" "123456"
        "Fresh2Pass" 900000
      = (.err "OTP expired" 400, [demoUserOtp]) := by
  exact otp_state_unchanged_on_expiry [demoUserOtp] "jane@example.com"
    "123456" "Fresh2Pass" 900000 demoUserOtp rfl (by decide) (by decide)

end JobSearchApp
